import Mathlib

/-!
Shallow embedding of scripts/winrm-cmd.py, a command-line program that runs
one PowerShell command on a remote Windows host over WinRM (HTTP on port
5985, NTLM authentication) and relays the remote stdout bytes, stderr bytes
and exit code to the local process.

The embedding models one process invocation as a pure function from an
environment (the argument vector, whether the winrm package imports, and
the behaviour of the transport) to the ordered list of observable writes
and the process exit code.
-/

/-- Result of a remote command execution as captured by the WinRM client.
Fields mirror the response object the script reads: raw stdout bytes
(std_out), raw stderr bytes (std_err) and the numeric remote exit status
(status_code). -/
structure ExecutionResult where
  std_out : List Nat
  std_err : List Nat
  status_code : Int
deriving DecidableEq, Repr

/-- Parameters the script hands to the winrm.Session constructor: the
endpoint URL, the credential pair and the transport name. -/
structure SessionParams where
  url : String
  auth : String × String
  transport : String
deriving DecidableEq, Repr

/-- Embedding of the winrm.Session construction in the script: the URL is
the interpolation of the host into http:// .. :5985/wsman, auth is the
(user, password) pair, and the transport is the literal ntlm. -/
def mkSession (host user password : String) : SessionParams :=
  { url := "http://" ++ host ++ ":5985/wsman"
    auth := (user, password)
    transport := "ntlm" }

/-- One observable write of the process: raw bytes to local stdout
(sys.stdout.buffer.write), raw bytes to local stderr
(sys.stderr.buffer.write), or a text line to local stderr (print with
file=sys.stderr, or the interpreter diagnostic for an uncaught
exception). -/
inductive OutputEvent where
  | outBytes (bs : List Nat)
  | errBytes (bs : List Nat)
  | errText (s : String)
deriving DecidableEq, Repr

/-- Environment of one invocation: the argument vector (element 0 is the
program name, so four positional arguments mean a length of five), whether
the import of the winrm package succeeds, and the behaviour of
session.run_ps on the session parameters and the command, which either
raises an exception carrying a diagnostic (Except.error) or returns a
captured ExecutionResult (Except.ok). -/
structure Env where
  argv : List String
  winrmAvailable : Bool
  runPS : SessionParams → String → Except String ExecutionResult

/-- Usage line the script prints to stderr on a wrong argument count. -/
def usageMessage (argv0 : String) : String :=
  "Usage: " ++ argv0 ++ " <host> <user> <password> <powershell-command>"

/-- Remediation line the script prints to stderr when import winrm fails. -/
def remediationMessage : String :=
  "pywinrm not installed. Install with: pip install pywinrm"

/-- Output relay of the script: write the std_out bytes to local stdout if
non-empty, then the std_err bytes to local stderr if non-empty. -/
def relayEvents (r : ExecutionResult) : List OutputEvent :=
  (if r.std_out ≠ [] then [OutputEvent.outBytes r.std_out] else []) ++
  (if r.std_err ≠ [] then [OutputEvent.errBytes r.std_err] else [])

/-- Embedding of one whole run of the script: the ordered list of output
events and the process exit code. The branches follow the source in order:
the argument-count guard (usage line, exit 2), the import guard
(remediation line, exit 2), then the session construction and run_ps call;
an exception raised there is uncaught, so the interpreter prints its
diagnostic to stderr and the process exits with code 1; otherwise the
result is relayed and the process exits with the remote status code. -/
def run (env : Env) : List OutputEvent × Int :=
  if env.argv.length ≠ 5 then
    ([OutputEvent.errText (usageMessage (env.argv.headD ""))], 2)
  else if env.winrmAvailable = false then
    ([OutputEvent.errText remediationMessage], 2)
  else
    match env.runPS (mkSession (env.argv.getD 1 "") (env.argv.getD 2 "")
        (env.argv.getD 3 "")) (env.argv.getD 4 "") with
    | Except.error msg => ([OutputEvent.errText msg], 1)
    | Except.ok r => (relayEvents r, r.status_code)

/-- Concatenation of all bytes written to local stdout, in order. -/
def stdoutStream (evs : List OutputEvent) : List Nat :=
  evs.foldr (fun e acc =>
    match e with
    | OutputEvent.outBytes bs => bs ++ acc
    | _ => acc) []

/-- Concatenation of all raw bytes written to local stderr, in order. -/
def stderrStream (evs : List OutputEvent) : List Nat :=
  evs.foldr (fun e acc =>
    match e with
    | OutputEvent.errBytes bs => bs ++ acc
    | _ => acc) []

/-- True when some event writes to local stdout. -/
def writesToStdout (evs : List OutputEvent) : Bool :=
  evs.any fun e =>
    match e with
    | OutputEvent.outBytes _ => true
    | _ => false

/-- True when some event writes raw bytes to local stderr. -/
def writesBytesToStderr (evs : List OutputEvent) : Bool :=
  evs.any fun e =>
    match e with
    | OutputEvent.errBytes _ => true
    | _ => false

/-- C1: when the arguments parse (length five including the program name),
the transport is available and run_ps returns a result, the process exit
code equals the remote status code, whatever its value. -/
theorem c1_exit_code_equals_remote (env : Env) (r : ExecutionResult)
    (hlen : env.argv.length = 5) (hav : env.winrmAvailable = true)
    (hrun : env.runPS (mkSession (env.argv.getD 1 "") (env.argv.getD 2 "")
      (env.argv.getD 3 "")) (env.argv.getD 4 "") = Except.ok r) :
    (run env).2 = r.status_code := by
  simp [run, hlen, hav] at hrun ⊢
  simp [hrun]

/-- Concrete environment for the C1 witness: the remote command exits 1. -/
def envC1 : Env :=
  { argv := ["winrm-cmd.py", "host1", "alice", "pw", "exit 1"]
    winrmAvailable := true
    runPS := fun _ _ => Except.ok ⟨[], [], 1⟩ }

/-- Witness for C1 at a remote exit code of 1: the local exit code is 1. -/
theorem c1_exit_code_equals_remote_witness : (run envC1).2 = 1 :=
  c1_exit_code_equals_remote envC1 ⟨[], [], 1⟩ rfl rfl rfl

/-- C2: when the argument count is wrong, the only output is the usage line
on stderr, nothing is written to stdout, and the exit code is 2. -/
theorem c2_usage_error (env : Env) (h : env.argv.length ≠ 5) :
    (run env).1 = [OutputEvent.errText (usageMessage (env.argv.headD ""))] ∧
    writesToStdout (run env).1 = false ∧
    (run env).2 = 2 := by
  refine ⟨?_, ?_, ?_⟩ <;> simp [run, h, writesToStdout]

/-- Concrete environment for the C2 witness: a single positional argument. -/
def envC2 : Env :=
  { argv := ["winrm-cmd.py", "onlyhost"]
    winrmAvailable := true
    runPS := fun _ _ => Except.ok ⟨[], [], 0⟩ }

/-- Witness for C2 with one positional argument: usage line on stderr, no
stdout write, exit code 2. -/
theorem c2_usage_error_witness :
    (run envC2).1 = [OutputEvent.errText (usageMessage (envC2.argv.headD ""))] ∧
    writesToStdout (run envC2).1 = false ∧
    (run envC2).2 = 2 :=
  c2_usage_error envC2 (by decide)

/-- Helper: the stdout byte stream of the relay equals the captured std_out
bytes exactly, for any byte sequence. -/
theorem stdoutStream_relayEvents (r : ExecutionResult) :
    stdoutStream (relayEvents r) = r.std_out := by
  by_cases h1 : r.std_out = [] <;> by_cases h2 : r.std_err = [] <;>
    simp [relayEvents, stdoutStream, h1, h2]

/-- Helper: the stderr byte stream of the relay equals the captured std_err
bytes exactly, for any byte sequence. -/
theorem stderrStream_relayEvents (r : ExecutionResult) :
    stderrStream (relayEvents r) = r.std_err := by
  by_cases h1 : r.std_out = [] <;> by_cases h2 : r.std_err = [] <;>
    simp [relayEvents, stderrStream, h1, h2]

/-- C3: on a successful execution the bytes relayed to local stdout are
exactly the captured std_out bytes and the bytes relayed to local stderr
are exactly the captured std_err bytes, with no translation of any kind
(the identity on arbitrary byte sequences), and an empty captured stream
produces no write on its channel. -/
theorem c3_relay_verbatim (env : Env) (r : ExecutionResult)
    (hlen : env.argv.length = 5) (hav : env.winrmAvailable = true)
    (hrun : env.runPS (mkSession (env.argv.getD 1 "") (env.argv.getD 2 "")
      (env.argv.getD 3 "")) (env.argv.getD 4 "") = Except.ok r) :
    stdoutStream (run env).1 = r.std_out ∧
    stderrStream (run env).1 = r.std_err ∧
    (r.std_out = [] → writesToStdout (run env).1 = false) ∧
    (r.std_err = [] → writesBytesToStderr (run env).1 = false) := by
  have hev : (run env).1 = relayEvents r := by
    simp [run, hlen, hav] at hrun ⊢
    simp [hrun]
  rw [hev]
  refine ⟨stdoutStream_relayEvents r, stderrStream_relayEvents r, ?_, ?_⟩
  · intro h1
    by_cases h2 : r.std_err = [] <;> simp [relayEvents, writesToStdout, h1, h2]
  · intro h2
    by_cases h1 : r.std_out = [] <;>
      simp [relayEvents, writesBytesToStderr, h1, h2]

/-- Concrete environment for the C3 witness: binary stdout bytes including
carriage return and newline and a null byte, empty stderr. -/
def envC3 : Env :=
  { argv := ["winrm-cmd.py", "host1", "alice", "pw", "type data.bin"]
    winrmAvailable := true
    runPS := fun _ _ => Except.ok ⟨[13, 10, 0, 255], [], 0⟩ }

/-- Witness for C3 on binary output with an empty stderr stream: the bytes
round-trip unchanged and stderr gets no byte write. -/
theorem c3_relay_verbatim_witness :
    stdoutStream (run envC3).1 = [13, 10, 0, 255] ∧
    stderrStream (run envC3).1 = [] ∧
    writesBytesToStderr (run envC3).1 = false := by
  have h := c3_relay_verbatim envC3 ⟨[13, 10, 0, 255], [], 0⟩ rfl rfl rfl
  exact ⟨h.1, h.2.1, h.2.2.2 rfl⟩

/-- Concrete environment for the C4 theorems: the transport raises a
connection error. -/
def envC4Conn : Env :=
  { argv := ["winrm-cmd.py", "unreachable.example", "alice", "pw", "whoami"]
    winrmAvailable := true
    runPS := fun _ _ =>
      Except.error "ConnectionError: failed to resolve unreachable.example" }

/-- Concrete environment contrasting with envC4Conn: the remote command
itself exits with code 1. -/
def envC4Remote : Env :=
  { argv := ["winrm-cmd.py", "host1", "alice", "pw", "exit 1"]
    winrmAvailable := true
    runPS := fun _ _ => Except.ok ⟨[], [], 1⟩ }

/-- C4 counterexample: a transport-level failure terminates the process
with exit code 1, exactly the exit code produced when the remote command
itself exits 1, so the failure is confusable with a remote exit code of 1
at the exit-code level, contrary to the claim. -/
theorem c4_counterexample :
    (run envC4Conn).2 = 1 ∧ (run envC4Remote).2 = 1 ∧
    (run envC4Conn).2 = (run envC4Remote).2 :=
  ⟨rfl, rfl, rfl⟩

/-- C4 amended: a transport-level failure terminates the process with the
fixed non-zero exit code 1 and writes the diagnostic to the error stream;
the failure is distinguishable from a remote result only through that
stderr diagnostic, not through the exit code, which coincides with a
remote exit code of 1. -/
theorem c4_transport_failure_nonzero (env : Env) (msg : String)
    (hlen : env.argv.length = 5) (hav : env.winrmAvailable = true)
    (hrun : env.runPS (mkSession (env.argv.getD 1 "") (env.argv.getD 2 "")
      (env.argv.getD 3 "")) (env.argv.getD 4 "") = Except.error msg) :
    (run env).2 = 1 ∧ (run env).2 ≠ 0 ∧
    (run env).1 = [OutputEvent.errText msg] := by
  have hr : run env = ([OutputEvent.errText msg], 1) := by
    simp [run, hlen, hav] at hrun ⊢
    simp [hrun]
  rw [hr]
  exact ⟨rfl, by norm_num, rfl⟩

/-- Witness for the amended C4 on a concrete connection failure. -/
theorem c4_transport_failure_nonzero_witness :
    (run envC4Conn).2 = 1 ∧ (run envC4Conn).2 ≠ 0 ∧
    (run envC4Conn).1 = [OutputEvent.errText
      "ConnectionError: failed to resolve unreachable.example"] :=
  c4_transport_failure_nonzero envC4Conn
    "ConnectionError: failed to resolve unreachable.example" rfl rfl rfl

/-- C5: with four positional arguments but the winrm package unavailable,
the only output is the remediation line on stderr and the exit code is 2. -/
theorem c5_transport_unavailable (env : Env)
    (hlen : env.argv.length = 5) (hav : env.winrmAvailable = false) :
    (run env).1 = [OutputEvent.errText remediationMessage] ∧
    writesToStdout (run env).1 = false ∧
    (run env).2 = 2 := by
  refine ⟨?_, ?_, ?_⟩ <;> simp [run, hlen, hav, writesToStdout]

/-- Concrete environment for the C5 witness: four arguments, import of the
winrm package fails. -/
def envC5 : Env :=
  { argv := ["winrm-cmd.py", "host1", "alice", "pw", "whoami"]
    winrmAvailable := false
    runPS := fun _ _ => Except.ok ⟨[], [], 0⟩ }

/-- Witness for C5: remediation message to stderr and exit code 2. -/
theorem c5_transport_unavailable_witness :
    (run envC5).1 = [OutputEvent.errText remediationMessage] ∧
    writesToStdout (run envC5).1 = false ∧
    (run envC5).2 = 2 :=
  c5_transport_unavailable envC5 rfl rfl

/-- C6: for every host, user and password, the session construction builds
the endpoint URL http:// followed by the host followed by :5985/wsman
(HTTP scheme, port 5985), pairs it with the (user, password) credentials
and selects the ntlm transport. -/
theorem c6_connect_builds_endpoint (host user password : String) :
    (mkSession host user password).url = "http://" ++ host ++ ":5985/wsman" ∧
    (mkSession host user password).auth = (user, password) ∧
    (mkSession host user password).transport = "ntlm" :=
  ⟨rfl, rfl, rfl⟩

/-- C7: the local observable outcome (events and exit code) is a
deterministic function of the captured ExecutionResult: two invocations
with parsing arguments whose transports return the same result produce
identical output events and identical exit codes. -/
theorem c7_deterministic_relay (env1 env2 : Env) (r : ExecutionResult)
    (h1len : env1.argv.length = 5) (h1av : env1.winrmAvailable = true)
    (h1run : env1.runPS (mkSession (env1.argv.getD 1 "") (env1.argv.getD 2 "")
      (env1.argv.getD 3 "")) (env1.argv.getD 4 "") = Except.ok r)
    (h2len : env2.argv.length = 5) (h2av : env2.winrmAvailable = true)
    (h2run : env2.runPS (mkSession (env2.argv.getD 1 "") (env2.argv.getD 2 "")
      (env2.argv.getD 3 "")) (env2.argv.getD 4 "") = Except.ok r) :
    run env1 = run env2 := by
  have e1 : run env1 = (relayEvents r, r.status_code) := by
    simp [run, h1len, h1av] at h1run ⊢
    simp [h1run]
  have e2 : run env2 = (relayEvents r, r.status_code) := by
    simp [run, h2len, h2av] at h2run ⊢
    simp [h2run]
  rw [e1, e2]

/-- Concrete environment for the C7 witness, first invocation. -/
def envC7a : Env :=
  { argv := ["winrm-cmd.py", "host1", "alice", "pw", "Get-Date"]
    winrmAvailable := true
    runPS := fun _ _ => Except.ok ⟨[111, 107], [], 0⟩ }

/-- Concrete environment for the C7 witness, second invocation with a
different transport function returning the same result. -/
def envC7b : Env :=
  { argv := ["winrm-cmd.py", "host1", "alice", "pw", "Get-Date"]
    winrmAvailable := true
    runPS := fun p _ =>
      if p.transport = "ntlm" then Except.ok ⟨[111, 107], [], 0⟩
      else Except.error "unexpected transport" }

/-- Witness for C7: the two invocations have identical outcomes. -/
theorem c7_deterministic_relay_witness : run envC7a = run envC7b :=
  c7_deterministic_relay envC7a envC7b ⟨[111, 107], [], 0⟩ rfl rfl rfl rfl rfl rfl

/-- C8: the password reaches the outside world only through the credential
interface: two invocations that differ only in the password argument, and
whose transports answer identically on their respective credentials,
produce identical output events and exit codes, so no text the program
writes depends on the password in any other way. -/
theorem c8_password_noninterference (a0 hs us p1 p2 c : String) (avail : Bool)
    (f1 f2 : SessionParams → String → Except String ExecutionResult)
    (hf : f1 (mkSession hs us p1) c = f2 (mkSession hs us p2) c) :
    run ⟨[a0, hs, us, p1, c], avail, f1⟩ =
      run ⟨[a0, hs, us, p2, c], avail, f2⟩ := by
  cases avail <;> simp [run, hf]

/-- Concrete transport for the C8 witness: ignores the credentials. -/
def runPSC8 : SessionParams → String → Except String ExecutionResult :=
  fun _ _ => Except.ok ⟨[104, 105], [], 0⟩

/-- Witness for C8 at two different passwords: identical outcomes. -/
theorem c8_password_noninterference_witness :
    run ⟨["winrm-cmd.py", "host1", "alice", "hunter2", "whoami"], true, runPSC8⟩ =
      run ⟨["winrm-cmd.py", "host1", "alice", "swordfish", "whoami"], true, runPSC8⟩ :=
  c8_password_noninterference "winrm-cmd.py" "host1" "alice" "hunter2"
    "swordfish" "whoami" true runPSC8 runPSC8 rfl

/-- C9: on a usage error the program terminates before the transport is
imported or any session is built: the outcome is independent of transport
availability and of the transport behaviour, and consists of exactly the
usage line on stderr and exit code 2, with no other observable effect. -/
theorem c9_usage_error_before_transport (argv : List String)
    (h : argv.length ≠ 5) (a1 a2 : Bool)
    (f1 f2 : SessionParams → String → Except String ExecutionResult) :
    run ⟨argv, a1, f1⟩ = run ⟨argv, a2, f2⟩ ∧
    run ⟨argv, a1, f1⟩ =
      ([OutputEvent.errText (usageMessage (argv.headD ""))], 2) := by
  constructor <;> simp [run, h]

/-- Concrete transport for the C9 witness that would fail if it were ever
consulted. -/
def runPSC9bad : SessionParams → String → Except String ExecutionResult :=
  fun _ _ => Except.error "transport must not be reached"

/-- Concrete transport for the C9 witness that succeeds. -/
def runPSC9ok : SessionParams → String → Except String ExecutionResult :=
  fun _ _ => Except.ok ⟨[104, 105], [], 0⟩

/-- Witness for C9 on a five-positional-argument invocation: availability
and transport behaviour do not matter, the outcome is the usage error. -/
theorem c9_usage_error_before_transport_witness :
    run ⟨["winrm-cmd.py", "h1", "u1", "p1", "c1", "extra"], true, runPSC9bad⟩ =
      run ⟨["winrm-cmd.py", "h1", "u1", "p1", "c1", "extra"], false, runPSC9ok⟩ ∧
    run ⟨["winrm-cmd.py", "h1", "u1", "p1", "c1", "extra"], true, runPSC9bad⟩ =
      ([OutputEvent.errText
        (usageMessage (["winrm-cmd.py", "h1", "u1", "p1", "c1", "extra"].headD ""))], 2) :=
  c9_usage_error_before_transport ["winrm-cmd.py", "h1", "u1", "p1", "c1", "extra"]
    (by decide) true false runPSC9bad runPSC9ok

/-- Helper: every event list a run produces splits as a prefix with no raw
stderr write followed by a suffix with no stdout write, so stdout bytes
always come first. -/
theorem run_events_split (env : Env) :
    ∃ front back : List OutputEvent,
      (run env).1 = front ++ back ∧
      (∀ bs, OutputEvent.errBytes bs ∉ front) ∧
      (∀ bs, OutputEvent.outBytes bs ∉ back) := by
  unfold run
  by_cases h5 : env.argv.length ≠ 5
  · exact ⟨[OutputEvent.errText (usageMessage (env.argv.headD ""))], [],
      by simp [h5], by simp, by simp⟩
  · by_cases hav : env.winrmAvailable = false
    · exact ⟨[OutputEvent.errText remediationMessage], [],
        by simp [h5, hav], by simp, by simp⟩
    · cases hrun : env.runPS (mkSession (env.argv.getD 1 "")
          (env.argv.getD 2 "") (env.argv.getD 3 "")) (env.argv.getD 4 "") with
      | error msg =>
          exact ⟨[OutputEvent.errText msg], [],
            by simp [h5, hav, hrun], by simp, by simp⟩
      | ok r =>
          refine ⟨if r.std_out ≠ [] then [OutputEvent.outBytes r.std_out] else [],
            if r.std_err ≠ [] then [OutputEvent.errBytes r.std_err] else [],
            by simp [h5, hav, hrun, relayEvents], ?_, ?_⟩
          · intro bs
            by_cases h1 : r.std_out = [] <;> simp [h1]
          · intro bs
            by_cases h2 : r.std_err = [] <;> simp [h2]

/-- C10: the relay order is fixed: whenever raw stderr bytes sit at
position i of the output-event list and raw stdout bytes at position j,
the stdout write precedes the stderr write, so stderr bytes are never
emitted before stdout bytes in one invocation. -/
theorem c10_stdout_before_stderr (env : Env) (i j : Nat)
    (bs cs : List Nat)
    (hi : (run env).1[i]? = some (OutputEvent.errBytes bs))
    (hj : (run env).1[j]? = some (OutputEvent.outBytes cs)) :
    j < i := by
  obtain ⟨front, back, hsplit, hfront, hback⟩ := run_events_split env
  rw [hsplit] at hi hj
  have hjlt : j < front.length := by
    by_contra hge
    push_neg at hge
    rw [List.getElem?_append_right hge] at hj
    exact hback cs (List.getElem?_mem hj)
  have hige : front.length ≤ i := by
    by_contra hlt
    push_neg at hlt
    rw [List.getElem?_append_left hlt] at hi
    exact hfront bs (List.getElem?_mem hi)
  omega

/-- Concrete environment for the C10 witness: both streams non-empty. -/
def envC10 : Env :=
  { argv := ["winrm-cmd.py", "host1", "alice", "pw", "dir"]
    winrmAvailable := true
    runPS := fun _ _ => Except.ok ⟨[104, 105], [101, 114], 0⟩ }

/-- Witness for C10: stdout bytes at position 0, stderr bytes at position
1, so the stdout write comes first. -/
theorem c10_stdout_before_stderr_witness :
    (run envC10).1[1]? = some (OutputEvent.errBytes [101, 114]) ∧
    (run envC10).1[0]? = some (OutputEvent.outBytes [104, 105]) ∧
    0 < 1 :=
  ⟨by decide, by decide,
    c10_stdout_before_stderr envC10 1 0 [101, 114] [104, 105]
      (by decide) (by decide)⟩
